import Mathlib

/-
Shallow embedding of the hair-AI LINE bot (src/index.js): the per-user
conversation state machine `handleEvent`, the bounded-retry message
senders `reply` and `push`, and the effects they emit.

External collaborators (image fetch, sharp preprocessing, the Gemini
HTTP call, temp-file publishing) are modelled at their interface
boundary: an inbound image event carries the already-preprocessed
base64 string, and the outcome of the generation call is a parameter
(`GenResult`).  Per-user state is an explicit record threaded through
the handler; the handler returns the next state together with the
ordered list of outbound effects.

String primitives used by the source (`String.prototype.trim`,
regex literal tests, case-insensitive comparison) are modelled on
`List Char` so that every definition evaluates by kernel reduction.
-/

/-- The `step` field of a per-user state record (string tags
`await_face` / `await_style` / `await_model_image` / `await_color`
in the source). -/
inductive Step
  | await_face
  | await_style
  | await_model_image
  | await_color
deriving DecidableEq

/-- One user's entry of `userState`: `{ step, faceB64, style, color, modelB64 }`.
`none` models both JS `null` and an absent key (`undefined`). -/
structure ConvState where
  step : Step
  faceB64 : Option String
  style : Option String
  color : Option String
  modelB64 : Option String
deriving DecidableEq

/-- The record installed by `userState[userId] ||= { step: 'await_face',
faceB64: null, style: null, color: null }` (no `modelB64` key, hence `none`). -/
def initState : ConvState :=
  ⟨Step.await_face, none, none, none, none⟩

/-- JS truthiness of a nullable string field: `null`/`undefined` and the
empty string are falsy, every other string is truthy. -/
def falsy : Option String → Bool
  | none => true
  | some s => s == ""

/-- JS `x || null` on a nullable string. -/
def orNull (o : Option String) : Option String :=
  if falsy o then none else o

/-- Char-list prefix test. -/
def startsWithChars : List Char → List Char → Bool
  | [], _ => true
  | _ :: _, [] => false
  | a :: as, b :: bs => a == b && startsWithChars as bs

/-- Char-list infix test. -/
def occursChars (pat : List Char) : List Char → Bool
  | [] => startsWithChars pat []
  | c :: rest => startsWithChars pat (c :: rest) || occursChars pat rest

/-- Model of `/pat/.test(s)` for a plain literal pattern (line 228): substring
containment. -/
def containsSubstring (s pat : String) : Bool :=
  occursChars pat.data s.data

/-- Model of `String.prototype.trim` (line 220): strip leading and trailing
whitespace. -/
def jsTrim (s : String) : String :=
  String.mk (((s.data.dropWhile Char.isWhitespace).reverse.dropWhile
    Char.isWhitespace).reverse)

/-- ASCII lowering, to model the `i` regex flag of line 221. -/
def lowerAscii (s : String) : String :=
  String.mk (s.data.map Char.toLower)

/-- The greeting alternatives of the regex
`/^(こんにちは|こんちは|やあ|hi|hello)$/i` (line 221). -/
def GREETINGS : List String :=
  ["こんにちは", "こんちは", "やあ", "hi", "hello"]

/-- Predicate `/^(こんにちは|こんちは|やあ|hi|hello)$/i.test(txt)`: whole-string,
case-insensitive match against the greeting alternatives. -/
def isGreeting (txt : String) : Bool :=
  GREETINGS.contains (lowerAscii txt)

/-- Source list `STYLE_QR` (line 173). -/
def STYLE_QR : List String :=
  ["ショート", "ボブ", "ミディアム", "ロング", "ウルフ", "メンズ",
   "モデル写真を送る📸", "自由入力✍️"]

/-- Source list `COLOR_QR` (line 174). -/
def COLOR_QR : List String :=
  ["そのまま", "黒髪", "ミルクティー", "ピンクベージュ", "グレージュ", "自由入力✍️"]

/-- Source flag `isStylePick` (line 233). -/
def isStylePick (txt : String) : Bool :=
  STYLE_QR.contains txt && !(txt == "モデル写真を送る📸") && !(txt == "自由入力✍️")

/-- Source flag `isColorPick` (line 234). -/
def isColorPick (txt : String) : Bool :=
  COLOR_QR.contains txt && !(txt == "自由入力✍️")

/-- The value stored into `st.color` at line 253:
`isColorPick ? (txt === 'そのまま' ? '' : txt) : txt`. -/
def colorFrom (txt : String) : String :=
  if isColorPick txt then (if txt == "そのまま" then "" else txt) else txt

/-- Outcome of `callGeminiImageCompose`: either the base64 of the generated
image, or a thrown `GenerationError` (non-ok HTTP status or a response with
no extractable image part). -/
inductive GenResult
  | ok (imgB64 : String)
  | fail
deriving DecidableEq

/-- One outbound effect of handling an event, in emission order.
`reply` is the single-use reply channel, `pushImage`/`pushText` the push
channel (a pushed image is identified by the base64 content that was saved
to the temp store), and `genCall` records an invocation of the Gemini
generation client with its four arguments (lines 262-267). -/
inductive Effect
  | reply (text : String) (quickReplyItems : Option (List String))
  | pushImage (imgB64 : String)
  | pushText (text : String) (quickReplyItems : Option (List String))
  | genCall (faceB64 : Option String) (modelB64 : Option String)
      (style : Option String) (color : Option String)
deriving DecidableEq

/-- Is the effect a message on the push channel? -/
def isPush : Effect → Bool
  | Effect.pushImage _ => true
  | Effect.pushText _ _ => true
  | _ => false

/-- Is the effect an invocation of the generation client? -/
def isGenCall : Effect → Bool
  | Effect.genCall _ _ _ _ => true
  | _ => false

def MSG_GREETING : String := "こんにちは！まずは自撮りを送ってください📸"
def MSG_MODEL_PROMPT : String := "参考にしたい髪型の写真を送ってください📸（正面・明るめ推奨）"
def MSG_FREE_STYLE : String := "なりたい髪型をテキストで教えてください（例：くびれボブ、ハンサムショート 等）"
def MSG_FREE_COLOR : String := "髪色をテキストで教えてください（例：ピンクベージュ、ブルーブラック 等）"
def MSG_ASK_COLOR : String := "髪色も変えてみる？🎨"
def MSG_NEED_FACE : String := "先に自撮りを送ってください📸"
def MSG_GENERATING : String := "AIがスタイルを生成中です…⏳"
def MSG_DONE : String := "完成！似合ってますね✨ もう一度試す？"
def MSG_FAIL : String := "ごめん、画像の生成に失敗しました。もう一度試してみてね🙏"
def MSG_TRY_AGAIN : String := "OK！次の髪型を選んでね✂️"
def MSG_WHICH_STYLE : String := "どの髪型にする？"
def MSG_PICK_COLOR : String := "髪色を選んでね🎨"
def MSG_PHOTO_PROMPT : String := "まずは自撮りを送ってください📸"
def MSG_NICE_SHOT : String := "ナイスショット👌 どんな髪型を試してみる？（参考写真を送ってもOK）"
def MSG_MODEL_RECEIVED : String := "モデル髪型の写真を受け取ったよ！ 髪色も変えてみる？🎨"
def MSG_FACE_UPDATED : String := "自撮りを更新したよ。次は髪型を選んでね✂️"

/-- Quick-reply labels offered with the completion push (line 271). -/
def DONE_QR : List String := ["もう一度試す", "髪型を変える", "髪色だけ変える"]

/-- The image branch of `handleEvent` (lines 185-216).  `b64` is the
base64 of the already fetched and preprocessed image. -/
def handleImage (st : ConvState) (b64 : String) : ConvState × List Effect :=
  if st.step = Step.await_face ∨ falsy st.faceB64 then
    ({ st with faceB64 := some b64, step := Step.await_style },
     [Effect.reply MSG_NICE_SHOT (some STYLE_QR)])
  else if st.step = Step.await_model_image then
    ({ st with modelB64 := some b64, step := Step.await_color },
     [Effect.reply MSG_MODEL_RECEIVED (some COLOR_QR)])
  else
    ({ st with faceB64 := some b64, step := Step.await_style },
     [Effect.reply MSG_FACE_UPDATED (some STYLE_QR)])

/-- The text branch of `handleEvent` (lines 219-299).  `gen` is the outcome
the generation client would produce if invoked during this event. -/
def handleTextEvent (gen : GenResult) (st : ConvState) (rawText : String) :
    ConvState × List Effect :=
  let txt := jsTrim rawText
  if isGreeting txt then
    (initState, [Effect.reply MSG_GREETING none])
  else if containsSubstring txt "モデル写真" then
    ({ st with step := Step.await_model_image },
     [Effect.reply MSG_MODEL_PROMPT none])
  else if txt == "自由入力✍️" then
    if st.step = Step.await_style ∨ falsy st.style then
      ({ st with step := Step.await_style }, [Effect.reply MSG_FREE_STYLE none])
    else
      ({ st with step := Step.await_color }, [Effect.reply MSG_FREE_COLOR none])
  else if st.step = Step.await_style then
    ({ st with style := some (if isStylePick txt then txt else txt),
               step := Step.await_color },
     [Effect.reply MSG_ASK_COLOR (some COLOR_QR)])
  else if st.step = Step.await_color then
    let st1 := { st with color := some (colorFrom txt) }
    if falsy st1.faceB64 then
      ({ st1 with step := Step.await_face }, [Effect.reply MSG_NEED_FACE none])
    else
      match gen with
      | GenResult.ok img =>
        ({ st1 with step := Step.await_style, modelB64 := none, color := none },
         [Effect.reply MSG_GENERATING none,
          Effect.genCall st1.faceB64 (orNull st1.modelB64) st1.style st1.color,
          Effect.pushImage img,
          Effect.pushText MSG_DONE (some DONE_QR)])
      | GenResult.fail =>
        (st1,
         [Effect.reply MSG_GENERATING none,
          Effect.genCall st1.faceB64 (orNull st1.modelB64) st1.style st1.color,
          Effect.pushText MSG_FAIL none])
  else if txt == "もう一度試す" then
    (⟨Step.await_style, orNull st.faceB64, none, none, none⟩,
     [Effect.reply MSG_TRY_AGAIN (some STYLE_QR)])
  else if txt == "髪型を変える" then
    ({ st with step := Step.await_style, style := none, modelB64 := none },
     [Effect.reply MSG_WHICH_STYLE (some STYLE_QR)])
  else if txt == "髪色だけ変える" then
    ({ st with step := Step.await_color },
     [Effect.reply MSG_PICK_COLOR (some COLOR_QR)])
  else
    (st, [Effect.reply MSG_PHOTO_PROMPT none])

/-- An inbound message event, after the external image fetch/preprocess. -/
inductive InMessage
  | image (preprocessedB64 : String)
  | text (content : String)
deriving DecidableEq

/-- Dispatch of `handleEvent` for a message event of a user whose state is `st`. -/
def handleEvent (gen : GenResult) (st : ConvState) (m : InMessage) :
    ConvState × List Effect :=
  match m with
  | InMessage.image b64 => handleImage st b64
  | InMessage.text s => handleTextEvent gen st s

/-
The Messenger retry loop shared by `reply` (lines 77-82) and `push`
(lines 84-89):

    for (let i = 0; i < 3; i++) {
      try { return await client.replyMessage(token, message); }
      catch (e) { if (i === 2) throw e; await sleep(250 * (i + 1)); }
    }

`send i` is the outcome of the i-th delivery attempt against the
platform SDK.  The result pairs the value returned/thrown with the
list of `sleep` delays (ms) performed between attempts.  Inside the
loop `i < 3` always holds, so the source's `i === 2` test is written
as `2 ≤ i`, which is equivalent there and makes termination manifest.
-/
def retryGo {E A : Type} (send : Nat → Except E A) (i : Nat) :
    Except E A × List Nat :=
  match send i with
  | Except.ok a => (Except.ok a, [])
  | Except.error e =>
    if h : 2 ≤ i then (Except.error e, [])
    else
      ((retryGo send (i + 1)).1, 250 * (i + 1) :: (retryGo send (i + 1)).2)
termination_by 3 - i
decreasing_by omega

/-- Source `reply(token, message)` (lines 77-82): three delivery attempts with backoff. -/
def reply {E A : Type} (send : Nat → Except E A) : Except E A × List Nat :=
  retryGo send 0

/-- Source `push(userId, message)` (lines 84-89): three delivery attempts with backoff. -/
def push {E A : Type} (send : Nat → Except E A) : Except E A × List Nat :=
  retryGo send 0

/-
============================== Claims ==============================
-/

/-- Claim C9 (confirmed): after the greeting guard, any text whose trimmed
form contains the substring モデル写真 sets `step` to `await_model_image` and
replies the reference-photo prompt, whatever the current state — the
reference-photo state is reachable from every step. -/
theorem C9_model_photo_reachable (gen : GenResult) (st : ConvState) (txt : String)
    (hgr : isGreeting (jsTrim txt) = false)
    (hmp : containsSubstring (jsTrim txt) "モデル写真" = true) :
    handleTextEvent gen st txt =
      ({ st with step := Step.await_model_image },
       [Effect.reply MSG_MODEL_PROMPT none]) := by
  simp [handleTextEvent, hgr, hmp]

/-- Witness for C9: the quick-reply label モデル写真を送る📸 sent from
`await_color` with no face stored. -/
theorem C9_witness :
    isGreeting (jsTrim "モデル写真を送る📸") = false ∧
    containsSubstring (jsTrim "モデル写真を送る📸") "モデル写真" = true ∧
    handleTextEvent GenResult.fail ⟨Step.await_color, none, none, none, none⟩ "モデル写真を送る📸"
      = (⟨Step.await_model_image, none, none, none, none⟩,
         [Effect.reply MSG_MODEL_PROMPT none]) :=
  ⟨by decide, by decide,
   C9_model_photo_reachable GenResult.fail ⟨Step.await_color, none, none, none, none⟩
     "モデル写真を送る📸" (by decide) (by decide)⟩

/-- Claim C4 (confirmed): a text reaching the generation trigger in step
`await_color` while `faceB64` is falsy sets `step` to `await_face`, replies
the resend-selfie prompt, and never invokes the generation client. -/
theorem C4_no_generation_without_face (gen : GenResult) (st : ConvState) (txt : String)
    (hgr : isGreeting (jsTrim txt) = false)
    (hmp : containsSubstring (jsTrim txt) "モデル写真" = false)
    (hfree : (jsTrim txt == "自由入力✍️") = false)
    (hstep : st.step = Step.await_color)
    (hface : falsy st.faceB64 = true) :
    handleTextEvent gen st txt
      = ({ st with color := some (colorFrom (jsTrim txt)), step := Step.await_face },
         [Effect.reply MSG_NEED_FACE none]) ∧
    ∀ e ∈ (handleTextEvent gen st txt).2, isGenCall e = false := by
  have h1 : handleTextEvent gen st txt
      = ({ st with color := some (colorFrom (jsTrim txt)), step := Step.await_face },
         [Effect.reply MSG_NEED_FACE none]) := by
    simp [handleTextEvent, hgr, hmp, hfree, hstep, hface]
  refine ⟨h1, ?_⟩
  rw [h1]
  intro e he
  simp only [List.mem_singleton] at he
  subst he
  rfl

/-- Witness for C4: the color ミルクティー arrives in `await_color` with no
stored face. -/
theorem C4_witness :
    falsy (⟨Step.await_color, none, some "ボブ", none, none⟩ : ConvState).faceB64 = true ∧
    (handleTextEvent GenResult.fail ⟨Step.await_color, none, some "ボブ", none, none⟩ "ミルクティー"
      = ({ (⟨Step.await_color, none, some "ボブ", none, none⟩ : ConvState) with
            color := some (colorFrom (jsTrim "ミルクティー")), step := Step.await_face },
         [Effect.reply MSG_NEED_FACE none]) ∧
     ∀ e ∈ (handleTextEvent GenResult.fail ⟨Step.await_color, none, some "ボブ", none, none⟩ "ミルクティー").2,
       isGenCall e = false) :=
  ⟨by decide,
   C4_no_generation_without_face GenResult.fail ⟨Step.await_color, none, some "ボブ", none, none⟩
     "ミルクティー" (by decide) (by decide) (by decide) (by decide) (by decide)⟩

/-- Claim C10 (confirmed): when a text arrives in `await_color` with `faceB64`
falsy, the color computed from the text is stored and survives the redirect to
`await_face` — it is not rolled back. -/
theorem C10_color_persists_across_redirect (gen : GenResult) (st : ConvState) (txt : String)
    (hgr : isGreeting (jsTrim txt) = false)
    (hmp : containsSubstring (jsTrim txt) "モデル写真" = false)
    (hfree : (jsTrim txt == "自由入力✍️") = false)
    (hstep : st.step = Step.await_color)
    (hface : falsy st.faceB64 = true) :
    (handleTextEvent gen st txt).1.color = some (colorFrom (jsTrim txt)) ∧
    (handleTextEvent gen st txt).1.step = Step.await_face := by
  simp [handleTextEvent, hgr, hmp, hfree, hstep, hface]

/-- Witness for C10: the free-text color パープル arrives in `await_color`
with no stored face; it persists through the redirect. -/
theorem C10_witness :
    falsy (⟨Step.await_color, none, some "ボブ", none, none⟩ : ConvState).faceB64 = true ∧
    (handleTextEvent GenResult.fail ⟨Step.await_color, none, some "ボブ", none, none⟩ "パープル").1.color
      = some (colorFrom (jsTrim "パープル")) ∧
    (handleTextEvent GenResult.fail ⟨Step.await_color, none, some "ボブ", none, none⟩ "パープル").1.step
      = Step.await_face :=
  ⟨by decide,
   C10_color_persists_across_redirect GenResult.fail ⟨Step.await_color, none, some "ボブ", none, none⟩
     "パープル" (by decide) (by decide) (by decide) (by decide) (by decide)⟩

/-- Claim C5 (confirmed): when the generation client fails after the pipeline
was triggered, the only push is the single apology notice, and the state is
exactly the state as of the trigger: `color` as just assigned, `style` and
`step` untouched, so resending a color retries. -/
theorem C5_failure_keeps_state (st : ConvState) (txt : String)
    (hgr : isGreeting (jsTrim txt) = false)
    (hmp : containsSubstring (jsTrim txt) "モデル写真" = false)
    (hfree : (jsTrim txt == "自由入力✍️") = false)
    (hstep : st.step = Step.await_color)
    (hface : falsy st.faceB64 = false) :
    handleTextEvent GenResult.fail st txt
      = ({ st with color := some (colorFrom (jsTrim txt)) },
         [Effect.reply MSG_GENERATING none,
          Effect.genCall st.faceB64 (orNull st.modelB64) st.style
            (some (colorFrom (jsTrim txt))),
          Effect.pushText MSG_FAIL none]) ∧
    (handleTextEvent GenResult.fail st txt).2.filter isPush
      = [Effect.pushText MSG_FAIL none] ∧
    (handleTextEvent GenResult.fail st txt).1.step = st.step ∧
    (handleTextEvent GenResult.fail st txt).1.style = st.style := by
  have h1 : handleTextEvent GenResult.fail st txt
      = ({ st with color := some (colorFrom (jsTrim txt)) },
         [Effect.reply MSG_GENERATING none,
          Effect.genCall st.faceB64 (orNull st.modelB64) st.style
            (some (colorFrom (jsTrim txt))),
          Effect.pushText MSG_FAIL none]) := by
    simp [handleTextEvent, hgr, hmp, hfree, hstep, hface]
  simp [h1, isPush, hstep]

/-- Witness for C5: generation fails after そのまま (keep original) was chosen
in `await_color` with face, style and reference image all present. -/
theorem C5_witness :
    falsy (⟨Step.await_color, some "F", some "ボブ", none, some "M"⟩ : ConvState).faceB64 = false ∧
    (handleTextEvent GenResult.fail ⟨Step.await_color, some "F", some "ボブ", none, some "M"⟩ "そのまま"
      = ({ (⟨Step.await_color, some "F", some "ボブ", none, some "M"⟩ : ConvState) with
            color := some (colorFrom (jsTrim "そのまま")) },
         [Effect.reply MSG_GENERATING none,
          Effect.genCall (some "F") (orNull (some "M")) (some "ボブ")
            (some (colorFrom (jsTrim "そのまま"))),
          Effect.pushText MSG_FAIL none]) ∧
     (handleTextEvent GenResult.fail ⟨Step.await_color, some "F", some "ボブ", none, some "M"⟩ "そのまま").2.filter isPush
        = [Effect.pushText MSG_FAIL none] ∧
     (handleTextEvent GenResult.fail ⟨Step.await_color, some "F", some "ボブ", none, some "M"⟩ "そのまま").1.step
        = (⟨Step.await_color, some "F", some "ボブ", none, some "M"⟩ : ConvState).step ∧
     (handleTextEvent GenResult.fail ⟨Step.await_color, some "F", some "ボブ", none, some "M"⟩ "そのまま").1.style
        = (⟨Step.await_color, some "F", some "ボブ", none, some "M"⟩ : ConvState).style) :=
  ⟨by decide,
   C5_failure_keeps_state ⟨Step.await_color, some "F", some "ボブ", none, some "M"⟩
     "そのまま" (by decide) (by decide) (by decide) (by decide) (by decide)⟩

/-- Claim C6 counterexample: in the reachable state where `step` is
`await_style` and `style` is already set (exactly the state left behind by a
successful generation), the 自由入力✍️ marker yields the STYLE-entry prompt,
not the color-entry prompt the claim requires for a set style. -/
theorem C6_counterexample :
    (⟨Step.await_style, some "F", some "ボブ", none, none⟩ : ConvState).style ≠ none ∧
    handleTextEvent GenResult.fail ⟨Step.await_style, some "F", some "ボブ", none, none⟩ "自由入力✍️"
      = (⟨Step.await_style, some "F", some "ボブ", none, none⟩,
         [Effect.reply MSG_FREE_STYLE none]) ∧
    MSG_FREE_STYLE ≠ MSG_FREE_COLOR := by
  exact ⟨by decide, by decide, by decide⟩

/-- Claim C6 as amended: the 自由入力✍️ marker always yields an explicit-entry
prompt, but the branch tests `step === 'await_style' || !style`, not style
presence alone: step `await_style` or a falsy style gives the style-entry
prompt (and step `await_style`), otherwise the color-entry prompt (and step
`await_color`). -/
theorem C6_free_text_marker (gen : GenResult) (st : ConvState) (txt : String)
    (hfree : jsTrim txt = "自由入力✍️") :
    handleTextEvent gen st txt =
      (if st.step = Step.await_style ∨ falsy st.style then
        ({ st with step := Step.await_style }, [Effect.reply MSG_FREE_STYLE none])
      else
        ({ st with step := Step.await_color }, [Effect.reply MSG_FREE_COLOR none])) := by
  have hgr : isGreeting "自由入力✍️" = false := by decide
  have hmp : containsSubstring "自由入力✍️" "モデル写真" = false := by decide
  simp [handleTextEvent, hfree, hgr, hmp]

/-- Witness for C6: with step `await_color` and a truthy style, the marker
gives the color-entry prompt. -/
theorem C6_witness :
    jsTrim "自由入力✍️" = "自由入力✍️" ∧
    handleTextEvent GenResult.fail ⟨Step.await_color, some "F", some "ボブ", none, none⟩ "自由入力✍️"
      = (if (⟨Step.await_color, some "F", some "ボブ", none, none⟩ : ConvState).step = Step.await_style
            ∨ falsy (⟨Step.await_color, some "F", some "ボブ", none, none⟩ : ConvState).style then
          ({ (⟨Step.await_color, some "F", some "ボブ", none, none⟩ : ConvState) with
              step := Step.await_style }, [Effect.reply MSG_FREE_STYLE none])
        else
          ({ (⟨Step.await_color, some "F", some "ボブ", none, none⟩ : ConvState) with
              step := Step.await_color }, [Effect.reply MSG_FREE_COLOR none])) :=
  ⟨by decide,
   C6_free_text_marker GenResult.fail ⟨Step.await_color, some "F", some "ボブ", none, none⟩
     "自由入力✍️" (by decide)⟩

/-- Claim C1 counterexample: "abc" in step `await_model_image` is unrecognized
(not a greeting, not a quick-reply label or marker, not a shortcut), yet the
handler leaves `step` at `await_model_image` instead of setting `await_face`. -/
theorem C1_counterexample :
    isGreeting "abc" = false ∧
    STYLE_QR.contains "abc" = false ∧
    COLOR_QR.contains "abc" = false ∧
    DONE_QR.contains "abc" = false ∧
    (handleTextEvent GenResult.fail ⟨Step.await_model_image, some "F", none, none, none⟩ "abc"
      = (⟨Step.await_model_image, some "F", none, none, none⟩,
         [Effect.reply MSG_PHOTO_PROMPT none])) ∧
    (handleTextEvent GenResult.fail ⟨Step.await_model_image, some "F", none, none, none⟩ "abc").1.step
      ≠ Step.await_face := by
  exact ⟨by decide, by decide, by decide, by decide, by decide, by decide⟩

/-- Claim C1 as amended: an unrecognized text that reaches the fallback (its
trimmed form is no greeting, contains no モデル写真, is not the 自由入力✍️
marker or one of the three shortcuts, and the step is neither `await_style`
nor `await_color`, in which those steps would consume the text as a style or
color) is answered with the photo prompt and the state — including `step` —
is left unchanged; the event is never silently dropped, but `step` is not
set to `await_face`. -/
theorem C1_fallback_prompts (gen : GenResult) (st : ConvState) (txt : String)
    (hgr : isGreeting (jsTrim txt) = false)
    (hmp : containsSubstring (jsTrim txt) "モデル写真" = false)
    (hfree : (jsTrim txt == "自由入力✍️") = false)
    (hs1 : st.step ≠ Step.await_style)
    (hs2 : st.step ≠ Step.await_color)
    (hr1 : (jsTrim txt == "もう一度試す") = false)
    (hr2 : (jsTrim txt == "髪型を変える") = false)
    (hr3 : (jsTrim txt == "髪色だけ変える") = false) :
    handleTextEvent gen st txt = (st, [Effect.reply MSG_PHOTO_PROMPT none]) := by
  simp [handleTextEvent, hgr, hmp, hfree, hs1, hs2, hr1, hr2, hr3]

/-- Witness for C1: "abc" in `await_face`. -/
theorem C1_witness :
    isGreeting (jsTrim "abc") = false ∧
    handleTextEvent GenResult.fail ⟨Step.await_face, none, none, none, none⟩ "abc"
      = (⟨Step.await_face, none, none, none, none⟩,
         [Effect.reply MSG_PHOTO_PROMPT none]) :=
  ⟨by decide,
   C1_fallback_prompts GenResult.fail ⟨Step.await_face, none, none, none, none⟩ "abc"
     (by decide) (by decide) (by decide) (by decide) (by decide) (by decide)
     (by decide) (by decide)⟩

/-- Claim C2 (code bug): the shortcut branch for もう一度試す sits below the
`await_style`/`await_color` branches, so in step `await_style` — precisely the
state in which the completion push offers the もう一度試す quick reply — the
shortcut text is consumed as a style pick (style := もう一度試す, step :=
`await_color`) instead of keeping the face and clearing the rest; the
shortcut branch behaves as the claim states only in steps `await_face` and
`await_model_image`, where the quick reply is never offered. -/
theorem C2_try_again_shadowed :
    handleTextEvent GenResult.fail ⟨Step.await_style, some "F", some "ボブ", none, none⟩ "もう一度試す"
      = (⟨Step.await_color, some "F", some "もう一度試す", none, none⟩,
         [Effect.reply MSG_ASK_COLOR (some COLOR_QR)]) ∧
    handleTextEvent GenResult.fail ⟨Step.await_face, some "F", some "S", some "C", some "M"⟩ "もう一度試す"
      = (⟨Step.await_style, some "F", none, none, none⟩,
         [Effect.reply MSG_TRY_AGAIN (some STYLE_QR)]) := by
  exact ⟨by decide, by decide⟩

/-- Claim C3 counterexample: after a successful generation triggered from
`await_color` with style ボブ, the stored `style` is still ボブ — it is not
cleared. -/
theorem C3_counterexample :
    (handleTextEvent (GenResult.ok "IMG")
        ⟨Step.await_color, some "F", some "ボブ", none, none⟩ "黒髪").1.style
      = some "ボブ" ∧ (some "ボブ" : Option String) ≠ none := by
  exact ⟨by decide, by decide⟩

/-- Claim C3 as amended: after a successful generation cycle `faceB64` is
retained, `modelB64` and `color` are reset to absent and `step` becomes
`await_style`, but `style` is retained as set, not cleared. -/
theorem C3_success_frame (st : ConvState) (txt img : String)
    (hgr : isGreeting (jsTrim txt) = false)
    (hmp : containsSubstring (jsTrim txt) "モデル写真" = false)
    (hfree : (jsTrim txt == "自由入力✍️") = false)
    (hstep : st.step = Step.await_color)
    (hface : falsy st.faceB64 = false) :
    ((handleTextEvent (GenResult.ok img) st txt).1.faceB64 = st.faceB64 ∧
     (handleTextEvent (GenResult.ok img) st txt).1.modelB64 = none ∧
     (handleTextEvent (GenResult.ok img) st txt).1.color = none) ∧
    (handleTextEvent (GenResult.ok img) st txt).1.style = st.style ∧
    (handleTextEvent (GenResult.ok img) st txt).1.step = Step.await_style := by
  simp [handleTextEvent, hgr, hmp, hfree, hstep, hface]

/-- Witness for C3: successful generation from `await_color` with style ボブ
and a reference image present. -/
theorem C3_witness :
    falsy (⟨Step.await_color, some "F", some "ボブ", none, some "M"⟩ : ConvState).faceB64 = false ∧
    (((handleTextEvent (GenResult.ok "IMG") ⟨Step.await_color, some "F", some "ボブ", none, some "M"⟩ "黒髪").1.faceB64
        = (⟨Step.await_color, some "F", some "ボブ", none, some "M"⟩ : ConvState).faceB64 ∧
      (handleTextEvent (GenResult.ok "IMG") ⟨Step.await_color, some "F", some "ボブ", none, some "M"⟩ "黒髪").1.modelB64
        = none ∧
      (handleTextEvent (GenResult.ok "IMG") ⟨Step.await_color, some "F", some "ボブ", none, some "M"⟩ "黒髪").1.color
        = none) ∧
     (handleTextEvent (GenResult.ok "IMG") ⟨Step.await_color, some "F", some "ボブ", none, some "M"⟩ "黒髪").1.style
        = (⟨Step.await_color, some "F", some "ボブ", none, some "M"⟩ : ConvState).style ∧
     (handleTextEvent (GenResult.ok "IMG") ⟨Step.await_color, some "F", some "ボブ", none, some "M"⟩ "黒髪").1.step
        = Step.await_style) :=
  ⟨by decide,
   C3_success_frame ⟨Step.await_color, some "F", some "ボブ", none, some "M"⟩ "黒髪" "IMG"
     (by decide) (by decide) (by decide) (by decide) (by decide)⟩

/-- Claim C7 (confirmed): an image arriving in `await_style` with a truthy
`faceB64` replaces `faceB64` by the newly preprocessed image and leaves `step`
at `await_style`; sending the same image again yields the same state. -/
theorem C7_image_resend_idempotent (st : ConvState) (b64 : String)
    (hstep : st.step = Step.await_style)
    (hface : falsy st.faceB64 = false) :
    handleImage st b64
      = ({ st with faceB64 := some b64, step := Step.await_style },
         [Effect.reply MSG_FACE_UPDATED (some STYLE_QR)]) ∧
    (handleImage (handleImage st b64).1 b64).1 = (handleImage st b64).1 := by
  have h1 : handleImage st b64
      = ({ st with faceB64 := some b64, step := Step.await_style },
         [Effect.reply MSG_FACE_UPDATED (some STYLE_QR)]) := by
    simp [handleImage, hstep, hface]
  refine ⟨h1, ?_⟩
  rw [h1]
  by_cases hb : (b64 == "") = true
  · simp [handleImage, falsy, hb]
  · simp [handleImage, falsy, hb]

/-- Witness for C7: a fresh selfie resent while a face is already stored. -/
theorem C7_witness :
    falsy (⟨Step.await_style, some "F", none, none, none⟩ : ConvState).faceB64 = false ∧
    (handleImage ⟨Step.await_style, some "F", none, none, none⟩ "G"
      = ({ (⟨Step.await_style, some "F", none, none, none⟩ : ConvState) with
            faceB64 := some "G", step := Step.await_style },
         [Effect.reply MSG_FACE_UPDATED (some STYLE_QR)]) ∧
     (handleImage (handleImage ⟨Step.await_style, some "F", none, none, none⟩ "G").1 "G").1
        = (handleImage ⟨Step.await_style, some "F", none, none, none⟩ "G").1) :=
  ⟨by decide,
   C7_image_resend_idempotent ⟨Step.await_style, some "F", none, none, none⟩ "G"
     (by decide) (by decide)⟩

/-- Exhaustive case analysis of the retry loop started at attempt 0: it runs
at most three attempts, sleeping 250 ms and then 500 ms between them. -/
theorem retryGo_zero_cases {E A : Type} (send : Nat → Except E A) :
    (∃ a, send 0 = Except.ok a ∧ retryGo send 0 = (Except.ok a, []))
    ∨ (∃ e0 a, send 0 = Except.error e0 ∧ send 1 = Except.ok a ∧
        retryGo send 0 = (Except.ok a, [250]))
    ∨ (∃ e0 e1 a, send 0 = Except.error e0 ∧ send 1 = Except.error e1 ∧
        send 2 = Except.ok a ∧ retryGo send 0 = (Except.ok a, [250, 500]))
    ∨ (∃ e0 e1 e2, send 0 = Except.error e0 ∧ send 1 = Except.error e1 ∧
        send 2 = Except.error e2 ∧ retryGo send 0 = (Except.error e2, [250, 500])) := by
  rcases h0 : send 0 with e0 | a0
  · rcases h1 : send 1 with e1 | a1
    · rcases h2 : send 2 with e2 | a2
      · refine Or.inr (Or.inr (Or.inr ⟨e0, e1, e2, rfl, rfl, rfl, ?_⟩))
        simp [retryGo, h0, h1, h2]
      · refine Or.inr (Or.inr (Or.inl ⟨e0, e1, a2, rfl, rfl, rfl, ?_⟩))
        simp [retryGo, h0, h1, h2]
    · refine Or.inr (Or.inl ⟨e0, a1, rfl, rfl, ?_⟩)
      simp [retryGo, h0, h1]
  · exact Or.inl ⟨a0, rfl, by simp [retryGo, h0]⟩

/-- Claim C8 (confirmed): `reply` and `push` run the identical bounded retry
loop; the backoff delays slept between attempts are strictly increasing and
at most two (hence at most three attempts); the outcome only depends on the
first three attempts; the platform result of the first successful attempt is
returned; and when all three attempts fail the error of the last attempt is
thrown to the caller. -/
theorem C8_messenger_bounded_retry {E A : Type} (send : Nat → Except E A) :
    reply send = push send ∧
    List.Pairwise (fun x y => x < y) (reply send).2 ∧
    (reply send).2.length + 1 ≤ 3 ∧
    (∀ send2 : Nat → Except E A, (∀ j, j < 3 → send j = send2 j) →
        reply send = reply send2) ∧
    (∀ k a, k < 3 → send k = Except.ok a →
        (∀ j, j < k → ∃ e, send j = Except.error e) →
        (reply send).1 = Except.ok a) ∧
    (∀ e0 e1 e2, send 0 = Except.error e0 → send 1 = Except.error e1 →
        send 2 = Except.error e2 → (reply send).1 = Except.error e2) := by
  rcases retryGo_zero_cases send with ⟨a, h0, hev⟩ | ⟨e0, a, h0, h1, hev⟩ |
    ⟨e0, e1, a, h0, h1, h2, hev⟩ | ⟨e0, e1, e2, h0, h1, h2, hev⟩
  · refine ⟨rfl, by simp [reply, hev], by simp [reply, hev], ?_, ?_, ?_⟩
    · intro send2 hagree
      have hs0 : send2 0 = Except.ok a := by rw [← hagree 0 (by omega)]; exact h0
      simp [reply, hev, retryGo, hs0]
    · intro k a2 hk hks hprev
      rcases k with _ | _ | _ | k
      · rw [h0] at hks
        injection hks with hh
        simp [reply, hev, hh]
      · rcases hprev 0 (by omega) with ⟨e, he⟩
        rw [h0] at he
        exact absurd he (by simp)
      · rcases hprev 0 (by omega) with ⟨e, he⟩
        rw [h0] at he
        exact absurd he (by simp)
      · omega
    · intro f0 f1 f2 he0 he1 he2
      rw [h0] at he0
      exact absurd he0 (by simp)
  · refine ⟨rfl, by simp [reply, hev], by simp [reply, hev], ?_, ?_, ?_⟩
    · intro send2 hagree
      have hs0 : send2 0 = Except.error e0 := by rw [← hagree 0 (by omega)]; exact h0
      have hs1 : send2 1 = Except.ok a := by rw [← hagree 1 (by omega)]; exact h1
      simp [reply, hev, retryGo, hs0, hs1]
    · intro k a2 hk hks hprev
      rcases k with _ | _ | _ | k
      · rw [h0] at hks
        exact absurd hks (by simp)
      · rw [h1] at hks
        injection hks with hh
        simp [reply, hev, hh]
      · rcases hprev 1 (by omega) with ⟨e, he⟩
        rw [h1] at he
        exact absurd he (by simp)
      · omega
    · intro f0 f1 f2 he0 he1 he2
      rw [h1] at he1
      exact absurd he1 (by simp)
  · refine ⟨rfl, by simp [reply, hev], by simp [reply, hev], ?_, ?_, ?_⟩
    · intro send2 hagree
      have hs0 : send2 0 = Except.error e0 := by rw [← hagree 0 (by omega)]; exact h0
      have hs1 : send2 1 = Except.error e1 := by rw [← hagree 1 (by omega)]; exact h1
      have hs2 : send2 2 = Except.ok a := by rw [← hagree 2 (by omega)]; exact h2
      simp [reply, hev, retryGo, hs0, hs1, hs2]
    · intro k a2 hk hks hprev
      rcases k with _ | _ | _ | k
      · rw [h0] at hks
        exact absurd hks (by simp)
      · rw [h1] at hks
        exact absurd hks (by simp)
      · rw [h2] at hks
        injection hks with hh
        simp [reply, hev, hh]
      · omega
    · intro f0 f1 f2 he0 he1 he2
      rw [h2] at he2
      exact absurd he2 (by simp)
  · refine ⟨rfl, by simp [reply, hev], by simp [reply, hev], ?_, ?_, ?_⟩
    · intro send2 hagree
      have hs0 : send2 0 = Except.error e0 := by rw [← hagree 0 (by omega)]; exact h0
      have hs1 : send2 1 = Except.error e1 := by rw [← hagree 1 (by omega)]; exact h1
      have hs2 : send2 2 = Except.error e2 := by rw [← hagree 2 (by omega)]; exact h2
      simp [reply, hev, retryGo, hs0, hs1, hs2]
    · intro k a2 hk hks hprev
      rcases k with _ | _ | _ | k
      · rw [h0] at hks
        exact absurd hks (by simp)
      · rw [h1] at hks
        exact absurd hks (by simp)
      · rw [h2] at hks
        exact absurd hks (by simp)
      · omega
    · intro f0 f1 f2 he0 he1 he2
      rw [h2] at he2
      injection he2 with hh
      simp [reply, hev, hh]

/-- A platform that drops the first delivery and accepts the second. -/
def sendScripted : Nat → Except String String :=
  fun i => if i = 0 then Except.error "disconnect" else Except.ok "delivered"

/-- Witness for C8: against `sendScripted`, `reply` returns the result of the
second attempt and the slept delays are strictly increasing. -/
theorem C8_witness :
    reply sendScripted = push sendScripted ∧
    (reply sendScripted).1 = Except.ok "delivered" ∧
    List.Pairwise (fun x y => x < y) (reply sendScripted).2 := by
  have h := C8_messenger_bounded_retry sendScripted
  refine ⟨h.1, ?_, h.2.1⟩
  refine h.2.2.2.2.1 1 "delivered" (by omega) rfl ?_
  intro j hj
  interval_cases j
  exact ⟨"disconnect", rfl⟩
